import Mathlib

/-!
Verification of the b0t workflow execution and queueing subsystem.

The development shallowly embeds, in Lean 4:
  * the run-output extraction logic of the `RunOutputModal` component
    (template matching on `returnValue`, path resolution with fallback,
    the auto-filter for internal/credential keys, and the sequence
    pass-through guard);
  * the workflow execution queue module `src/lib/workflows/workflow-queue.ts`
    (direct-execution fallback, enqueueing, availability probe, stats);
  * the worker job handler that wraps the Step Executor;
  * a model of the broker-side Job lifecycle (retry/backoff state machine
    and bounded worker pool), whose engine is not part of the sources.

JavaScript dynamic values are modelled by the inductive `JValue`
(null / boolean / number / string / array / object as an association list),
with explicit embeddings of JS truthiness, `typeof v === 'object'`,
`Array.isArray`, `String.prototype.includes`, `String.prototype.trim`,
`String.prototype.split('.')` and the property-membership test `key in v`
restricted to own data properties (prototype-chain properties are not
modelled; the values at hand are plain JSON data).
-/

/-- Dynamic (JSON-like) JavaScript value. Numbers are modelled as integers;
none of the verified claims depends on fractional numeric values. -/
inductive JValue where
  | null : JValue
  | bool : Bool → JValue
  | num : Int → JValue
  | str : String → JValue
  | arr : List JValue → JValue
  | obj : List (String × JValue) → JValue

/-- JS truthiness: `null`, `false`, `0`, `""` are falsy; arrays and objects
(empty or not) are truthy. -/
def truthy : JValue → Bool
  | .null => false
  | .bool b => b
  | .num n => n != 0
  | .str s => s != ""
  | .arr _ => true
  | .obj _ => true

/-- `typeof v === 'object'`: true for objects, arrays and `null`. -/
def isObjType : JValue → Bool
  | .null => true
  | .obj _ => true
  | .arr _ => true
  | _ => false

/-- `Array.isArray(v)`. -/
def jsIsArray : JValue → Bool
  | .arr _ => true
  | _ => false

/-- Own-property lookup on an object's association list
(first binding wins; JS objects cannot carry duplicate keys). -/
def objGet (l : List (String × JValue)) (k : String) : Option JValue :=
  match l with
  | [] => none
  | (k', v) :: rest => if k' == k then some v else objGet rest k

/-- The canonical array-index reading of a key string, as used by the JS
`in` operator on arrays: `"0"`, `"1"`, ... (no leading zeros, no sign). -/
def canonIndex (k : String) : Option Nat :=
  match k.toNat? with
  | some n => if toString n == k then some n else none
  | none => none

/-- The opening-brace character, `{`. -/
def lbrace : Char := Char.ofNat 123

/-- The closing-brace character, `}`. -/
def rbrace : Char := Char.ofNat 125

/-- One traversal step of the resolution loop's guard-and-read:
`value && typeof value === 'object' && key in value` followed by
`value[key]`. Arrays expose their canonical indices and `length`;
non-objects (and `null`, via truthiness) refuse traversal. -/
def jGetIn (v : JValue) (k : String) : Option JValue :=
  match v with
  | .obj l => objGet l k
  | .arr a =>
      if k == "length" then some (.num (Int.ofNat a.length))
      else
        match canonIndex k with
        | some i => a.get? i
        | none => none
  | _ => none

/-- Substring test on character lists, used to embed
`String.prototype.includes`. -/
def charsInclude (pat : List Char) : List Char → Bool
  | [] => pat.isEmpty
  | c :: cs => (pat == (c :: cs).take pat.length) || charsInclude pat cs

/-- `s.includes(pat)` on strings. -/
def jsIncludes (s pat : String) : Bool :=
  charsInclude pat.data s.data

/-- `String.prototype.trim` (whitespace stripped from both ends). -/
def trimChars (cs : List Char) : List Char :=
  ((cs.dropWhile Char.isWhitespace).reverse.dropWhile Char.isWhitespace).reverse

/-- `path.split('.')` on character lists: splits on every dot, keeping
empty segments, and yields `[[]]` on the empty input, as in JS. -/
def splitOnDot : List Char → List (List Char)
  | [] => [[]]
  | c :: rest =>
      if c == '.' then [] :: splitOnDot rest
      else
        match splitOnDot rest with
        | h :: t => (c :: h) :: t
        | [] => [[c]]

/-- The whole-string match of `returnValue` against the regular expression
`^\x7b\x7b([^\x7d]+)\x7d\x7d$`: the string is `\x7b\x7b`, then a non-empty
run of characters none of which is `\x7d` (the capture), then `\x7d\x7d`.
Returns the captured path when the whole string matches. -/
def templateCaptureChars (cs : List Char) : Option (List Char) :=
  match cs with
  | c1 :: c2 :: rest =>
      if c1 == lbrace && c2 == lbrace then
        let inner := rest.take (rest.length - 2)
        let tl := rest.drop (rest.length - 2)
        if tl == [rbrace, rbrace] && !inner.isEmpty
            && inner.all (fun c => !(c == rbrace)) then
          some inner
        else none
      else none
  | _ => none

/-- String-level wrapper of `templateCaptureChars`. -/
def templateCapture (s : String) : Option String :=
  (templateCaptureChars s.data).map (fun cs => String.mk cs)

/-- The source's path preparation: `match[1].trim()` then `.split('.')`. -/
def splitPath (cap : String) : List String :=
  (splitOnDot (trimChars cap.data)).map (fun cs => String.mk cs)

/-- The claim's literal path preparation: the captured path split on `.`
with no trimming. Stated only to compare with `splitPath`, which is what
the source computes. -/
def splitPathUntrimmed (cap : String) : List String :=
  (splitOnDot cap.data).map (fun cs => String.mk cs)

/-- The resolution loop of `RunOutputModal`: descend into `value[key]` for
each segment while the guard holds; on the first miss set the accumulator
back to the full raw output and break. -/
def resolveLoop (raw : JValue) : List String → JValue → JValue
  | [], v => v
  | k :: ks, v =>
      match jGetIn v k with
      | some v' => resolveLoop raw ks v'
      | none => raw

/-- Clean specification-level path resolution: traverse all segments,
returning `none` as soon as one is not found. -/
def pathResolve : List String → JValue → Option JValue
  | [], v => some v
  | k :: ks, v => (jGetIn v k).bind (pathResolve ks)

/-- Truthiness of the optional `returnValue` string
(`undefined` and `""` are falsy). -/
def rvTruthy : Option String → Bool
  | some s => !(s == "")
  | none => false

/-- The fixed internal-variable key set of the auto-filter. -/
def internalKeys : List String := ["user", "trigger"]

/-- The fixed credential-platform key set of the auto-filter. -/
def credentialPlatforms : List String :=
  ["openai", "anthropic", "youtube", "slack", "twitter", "github", "reddit"]

/-- A key the auto-filter removes: an internal key, a key containing
`_apikey` or `_api_key`, or a known credential-platform name. -/
def isFilteredKey (k : String) : Bool :=
  internalKeys.contains k
    || jsIncludes k "_apikey"
    || jsIncludes k "_api_key"
    || credentialPlatforms.contains k

/-- The entries an object's auto-filter keeps. -/
def autoFilterEntries (l : List (String × JValue)) : List (String × JValue) :=
  l.filter (fun kv => !(isFilteredKey kv.1))

/-- The auto-filter applied to an object output: keep the non-filtered
entries if any survive, otherwise return the original object unchanged. -/
def autoFilter (l : List (String × JValue)) : JValue :=
  let fl := autoFilterEntries l
  if fl.length > 0 then .obj fl else .obj l

/-- The output post-processing of `RunOutputModal`, branch for branch:
1. `returnValue` truthy, output a truthy non-array object value: if the
   whole `returnValue` matches the template pattern, run the resolution
   loop on the trimmed, dot-split capture; otherwise leave the output.
2. `returnValue` truthy, output an array: pass through unchanged.
3. `returnValue` truthy otherwise: pass through unchanged.
4. `returnValue` falsy, output a truthy non-array object value: auto-filter.
5. Otherwise: pass through unchanged. -/
def processOutput (retV : Option String) (out : JValue) : JValue :=
  if rvTruthy retV && truthy out && isObjType out && !(jsIsArray out) then
    match templateCapture (retV.getD "") with
    | some cap => resolveLoop out (splitPath cap) out
    | none => out
  else if rvTruthy retV && jsIsArray out then out
  else if rvTruthy retV then out
  else if !(rvTruthy retV) && truthy out && isObjType out && !(jsIsArray out) then
    match out with
    | .obj l => autoFilter l
    | _ => out
  else out

/-- The extractor as the claim words it: identical to `processOutput`
except that the captured path is split on `.` without the source's
`trim()` normalization. Stated only to be compared with `processOutput`. -/
def claimedExtractUntrimmed (retV : Option String) (out : JValue) : JValue :=
  if rvTruthy retV && truthy out && isObjType out && !(jsIsArray out) then
    match templateCapture (retV.getD "") with
    | some cap => resolveLoop out (splitPathUntrimmed cap) out
    | none => out
  else if rvTruthy retV && jsIsArray out then out
  else if rvTruthy retV then out
  else if !(rvTruthy retV) && truthy out && isObjType out && !(jsIsArray out) then
    match out with
    | .obj l => autoFilter l
    | _ => out
  else out

/-! ## The workflow execution queue (`src/lib/workflows/workflow-queue.ts`) -/

/-- The trigger kinds accepted by `WorkflowJobData`. -/
inductive TriggerType where
  | manual | cron | webhook | telegram | discord
deriving DecidableEq

/-- `triggerData?: Record<string, unknown>`. -/
def TrigData := List (String × JValue)

/-- The Step Executor's run result, as consumed by the queue module and its
callers (`result.success`, `result.error`, `result.errorStep`,
`result.output`). The executor itself lives outside the queue module and is
treated as an opaque function producing such a result. -/
structure ExecResult where
  success : Bool
  error : Option String
  errorStep : Option String
  output : JValue

/-- A Step Executor: invoked with `workflowId`, `userId`, `triggerType`
and `triggerData`. -/
def Executor := String → String → TriggerType → Option TrigData → ExecResult

/-- The queue name constant `WORKFLOW_QUEUE_NAME`. -/
def WORKFLOW_QUEUE_NAME : String := "workflows-execution"

/-- Broker-side counters of one queue, as read by the stats query. -/
structure QueueCounts where
  waiting : Nat
  active : Nat
  completed : Nat
  failed : Nat
  delayed : Nat
deriving DecidableEq

/-- The process environment and module-level queue registry the queue
functions read: `process.env.REDIS_URL` (`none` = unset), the `queues`
map keyed by queue name, and the id the broker would assign to the next
added job (`none` when the broker reports no id). -/
structure Env where
  redisUrl : Option String
  queues : List (String × QueueCounts)
  nextJobId : Option String

/-- Truthiness of `process.env.REDIS_URL` (unset or empty string is falsy). -/
def envRedisSet (env : Env) : Bool :=
  match env.redisUrl with
  | some s => !(s == "")
  | none => false

/-- `queues.get(name)` on the registry. -/
def queuesGet (qs : List (String × QueueCounts)) (k : String) : Option QueueCounts :=
  match qs with
  | [] => none
  | (k', c) :: rest => if k' == k then some c else queuesGet rest k

/-- `job.id || 'unknown'` (a missing or empty id falls back to `"unknown"`). -/
def jsIdOr (o : Option String) : String :=
  match o with
  | some s => if s == "" then "unknown" else s
  | none => "unknown"

/-- The payload added to the queue for one run request. -/
structure WorkflowJobData where
  workflowId : String
  userId : String
  triggerType : TriggerType
  triggerData : Option TrigData

/-- The value `queueWorkflowExecution` resolves with. -/
structure EnqueueResponse where
  jobId : String
  queued : Bool
deriving DecidableEq

/-- The observable outcome of one `queueWorkflowExecution` call: the Step
Executor runs it performed directly in-process, the jobs it added to the
queue, and its returned value (`Except.error` models a thrown error). -/
structure QueueOutcome where
  directRuns : List ExecResult
  enqueued : List WorkflowJobData
  response : Except String EnqueueResponse

/-- `queueWorkflowExecution`, branch for branch: with `REDIS_URL` falsy,
execute the workflow directly and resolve with the sentinel
`direct-execution` / `queued: false`; otherwise look the queue up and throw
if it is missing; otherwise add the job and resolve with its id. -/
def queueWorkflowExecution (env : Env) (exec : Executor)
    (workflowId userId : String) (triggerType : TriggerType)
    (triggerData : Option TrigData) : QueueOutcome :=
  if !(envRedisSet env) then
    { directRuns := [exec workflowId userId triggerType triggerData]
      enqueued := []
      response := Except.ok { jobId := "direct-execution", queued := false } }
  else
    match queuesGet env.queues WORKFLOW_QUEUE_NAME with
    | none =>
        { directRuns := []
          enqueued := []
          response := Except.error
            "Workflow queue not initialized. Call initializeWorkflowQueue() first." }
    | some _ =>
        { directRuns := []
          enqueued := [{ workflowId := workflowId, userId := userId,
                         triggerType := triggerType, triggerData := triggerData }]
          response := Except.ok { jobId := jsIdOr env.nextJobId, queued := true } }

/-- `isWorkflowQueueAvailable`: `!!process.env.REDIS_URL && queues.has(name)`. -/
def isWorkflowQueueAvailable (env : Env) : Bool :=
  envRedisSet env && (queuesGet env.queues WORKFLOW_QUEUE_NAME).isSome

/-- The snapshot returned by `getWorkflowQueueStats`. -/
structure WorkflowQueueStats where
  waiting : Nat
  active : Nat
  completed : Nat
  failed : Nat
  delayed : Nat
  total : Nat
deriving DecidableEq

/-- `getWorkflowQueueStats`: `null` when the queue is not in the registry,
otherwise the five counters plus `total = waiting + active + delayed`. -/
def getWorkflowQueueStats (qs : List (String × QueueCounts)) :
    Option WorkflowQueueStats :=
  match queuesGet qs WORKFLOW_QUEUE_NAME with
  | none => none
  | some c =>
      some { waiting := c.waiting, active := c.active, completed := c.completed,
             failed := c.failed, delayed := c.delayed,
             total := c.waiting + c.active + c.delayed }

/-! ## The worker's job handler -/

/-- A queued job as seen by the worker callback: its id, payload, and the
broker's count of attempts already made (read only for logging). -/
structure QueueJob where
  id : Option String
  data : WorkflowJobData
  attemptsMade : Nat

/-- JS template-literal rendering of a `string | undefined` value. -/
def jsShowOpt : Option String → String
  | some s => s
  | none => "undefined"

/-- The error message the worker throws when the executor reports
`success: false`. -/
def workerError (r : ExecResult) : String :=
  "Workflow execution failed: " ++ jsShowOpt r.error ++ " "
    ++ (match r.errorStep with
        | some st => "(step: " ++ st ++ ")"
        | none => "")

/-- The worker callback of `createWorker`: run the whole Step Executor on
the job's payload; return the result on success, throw on
`success: false` (so the broker marks the attempt failed). -/
def processWorkflowJob (exec : Executor) (job : QueueJob) :
    Except String ExecResult :=
  let d := job.data
  let result := exec d.workflowId d.userId d.triggerType d.triggerData
  if result.success then Except.ok result
  else Except.error (workerError result)

/-! ## The broker-side Job lifecycle (modelled) -/

/-- The job options of `createQueue`: `attempts: 3` (the broker's total
number of executions per job). -/
def workflowJobAttempts : Nat := 3

/-- The job options of `createQueue`: exponential backoff with
`delay: 10000` milliseconds. -/
def workflowBackoffDelayMs : Nat := 10000

/-- A Job's lifecycle phase in the broker. -/
inductive JobPhase where
  | queued | active | completed | failed
deriving DecidableEq

/-- Modelled from the spec: the broker-backed Job state machine of the
Execution Queue (the queue library and its broker are not under the
sources; only the job options are). A Job cycles
`queued → active → failed` once per execution; with a budget of `A` total
executions, a job whose execution always fails traverses that cycle `A`
times and then rests terminally `failed`. -/
def alwaysFailPhases (A : Nat) : List JobPhase :=
  (List.replicate A [JobPhase.queued, JobPhase.active, JobPhase.failed]).flatten

/-- Modelled from the spec: the exponential backoff of the retry engine
(not under the sources), instantiated by the source's job options. The
n-th re-queue after a failure is delayed `base * 2 ^ (n - 1)` milliseconds;
a budget of `A` total executions allows `A - 1` re-queues. -/
def attemptDelays (A base : Nat) : List Nat :=
  (List.range (A - 1)).map (fun i => base * 2 ^ i)

/-- Whether `tr` starts with the contiguous phase pattern `pat`. -/
def startsWithSeq : List JobPhase → List JobPhase → Bool
  | [], _ => true
  | _ :: _, [] => false
  | p :: ps, t :: ts => p == t && startsWithSeq ps ts

/-- The number of (possibly overlapping) occurrences of the contiguous
phase pattern `pat` in a trace. -/
def countOcc (pat : List JobPhase) : List JobPhase → Nat
  | [] => 0
  | t :: ts => (if startsWithSeq pat (t :: ts) then 1 else 0) + countOcc pat ts

/-! ## The bounded worker pool (modelled) -/

/-- A job owned by some user together with its current lifecycle phase. -/
structure QJob where
  user : String
  phase : JobPhase
deriving DecidableEq

/-- Whether a lifecycle phase is `active`. -/
def isActivePhase : JobPhase → Bool
  | .active => true
  | _ => false

/-- The number of jobs currently `active`, across all users. -/
def activeCount (s : List QJob) : Nat :=
  (s.filter (fun j => isActivePhase j.phase)).length

/-- Modelled from the spec: the worker pool of the Execution Queue (the
queue library and its broker are not under the sources). The pool state is
the list of all jobs; any user may enqueue at any time, a worker may start
a queued job only while fewer than `N` jobs are active system-wide, and an
active job may complete, fail, or (after failing) be re-queued. -/
inductive PoolStep (N : Nat) : List QJob → List QJob → Prop where
  | enqueue (s : List QJob) (u : String) :
      PoolStep N s (s ++ [{ user := u, phase := JobPhase.queued }])
  | start (pre post : List QJob) (u : String) :
      activeCount (pre ++ { user := u, phase := JobPhase.queued } :: post) < N →
      PoolStep N (pre ++ { user := u, phase := JobPhase.queued } :: post)
                 (pre ++ { user := u, phase := JobPhase.active } :: post)
  | complete (pre post : List QJob) (u : String) :
      PoolStep N (pre ++ { user := u, phase := JobPhase.active } :: post)
                 (pre ++ { user := u, phase := JobPhase.completed } :: post)
  | fail (pre post : List QJob) (u : String) :
      PoolStep N (pre ++ { user := u, phase := JobPhase.active } :: post)
                 (pre ++ { user := u, phase := JobPhase.failed } :: post)
  | retry (pre post : List QJob) (u : String) :
      PoolStep N (pre ++ { user := u, phase := JobPhase.failed } :: post)
                 (pre ++ { user := u, phase := JobPhase.queued } :: post)

/-- The pool states reachable from the empty initial state. -/
inductive PoolReachable (N : Nat) : List QJob → Prop where
  | init : PoolReachable N []
  | step {s s' : List QJob} :
      PoolReachable N s → PoolStep N s s' → PoolReachable N s'

/-! ## Concrete inputs for witnesses and counterexamples -/

/-- An executor that always succeeds with a `null` output. -/
def execOk : Executor :=
  fun _ _ _ _ => { success := true, error := none, errorStep := none, output := JValue.null }

/-- An executor that always fails at step `s1` with message `boom`. -/
def execFailBoom : Executor :=
  fun _ _ _ _ =>
    { success := false, error := some "boom", errorStep := some "s1", output := JValue.null }

/-- An environment with no `REDIS_URL` and no initialized queue. -/
def envDirect : Env := { redisUrl := none, queues := [], nextJobId := none }

/-- An environment where `REDIS_URL` is set but queue initialization failed,
so the queue registry is empty. -/
def envBrokenInit : Env :=
  { redisUrl := some "redis://localhost:6379", queues := [], nextJobId := none }

/-- Sample broker counters. -/
def qcSample : QueueCounts :=
  { waiting := 2, active := 3, completed := 5, failed := 7, delayed := 11 }

/-- A queue registry holding the workflow queue with `qcSample` counters. -/
def qsSample : List (String × QueueCounts) := [(WORKFLOW_QUEUE_NAME, qcSample)]

/-- A sample queued job. -/
def jobSample : QueueJob :=
  { id := some "j1"
    data := { workflowId := "wf1", userId := "u1", triggerType := TriggerType.manual,
              triggerData := none }
    attemptsMade := 0 }

/-- A pool state with a single active job. -/
def poolS1 : List QJob := [{ user := "u1", phase := JobPhase.active }]

/-! ## Helper lemmas -/

/-- A `returnValue` whose whole string matches the template pattern is a
non-empty, hence truthy, string. -/
theorem templateCapture_ne_empty (rv cap : String)
    (h : templateCapture rv = some cap) : (rv == "") = false := by
  cases hrv : rv == ""
  · rfl
  · exfalso
    have he : rv = "" := eq_of_beq hrv
    subst he
    simp [show templateCapture "" = none from rfl] at h

/-- The source's resolution loop computes exactly the clean path
resolution with the raw output as the fallback value. -/
theorem resolveLoop_eq_pathResolve (raw : JValue) (ks : List String) :
    ∀ v : JValue, resolveLoop raw ks v = (pathResolve ks v).getD raw := by
  induction ks with
  | nil => intro v; rfl
  | cons k ks ih =>
      intro v
      cases h : jGetIn v k with
      | none => simp [resolveLoop, pathResolve, h]
      | some v' => simp [resolveLoop, pathResolve, h, ih]

/-- `activeCount` distributes over list append. -/
theorem activeCount_append (a b : List QJob) :
    activeCount (a ++ b) = activeCount a + activeCount b := by
  simp [activeCount, List.filter_append]

/-- `activeCount` of a cons counts the head's phase. -/
theorem activeCount_cons (j : QJob) (s : List QJob) :
    activeCount (j :: s) = (if isActivePhase j.phase then 1 else 0) + activeCount s := by
  by_cases h : isActivePhase j.phase <;>
    simp [activeCount, List.filter_cons, h, Nat.add_comm]

/-! ## C1: direct-execution fallback refines the Step Executor -/

/-- C1: with no broker configured (`REDIS_URL` unset), a run request is
executed synchronously in-process by invoking the Step Executor with the
same `workflowId`, `userId`, `triggerType` and `triggerData` — the Run
produced is exactly the executor's result for those inputs — and the call
resolves with the sentinel job id `direct-execution` and `queued = false`,
enqueuing nothing. -/
theorem queue_direct_fallback_refines_executor (env : Env) (exec : Executor)
    (w u : String) (tt : TriggerType) (td : Option TrigData)
    (h : env.redisUrl = none) :
    queueWorkflowExecution env exec w u tt td =
      { directRuns := [exec w u tt td]
        enqueued := []
        response := Except.ok { jobId := "direct-execution", queued := false } } := by
  simp [queueWorkflowExecution, envRedisSet, h]

/-- Witness for C1 at a concrete environment and executor. -/
theorem queue_direct_fallback_refines_executor_witness :
    envDirect.redisUrl = none ∧
    queueWorkflowExecution envDirect execOk "wf1" "u1" TriggerType.manual none =
      { directRuns := [execOk "wf1" "u1" TriggerType.manual none]
        enqueued := []
        response := Except.ok { jobId := "direct-execution", queued := false } } :=
  ⟨rfl, queue_direct_fallback_refines_executor envDirect execOk "wf1" "u1"
      TriggerType.manual none rfl⟩

/-! ## C3: behavior when the queue is unavailable -/

/-- C3 counterexample: when `REDIS_URL` is set but queue initialization
failed (the registry has no workflow queue), the availability probe is
`false`, yet `queueWorkflowExecution` raises the
`Workflow queue not initialized` error to its caller and performs no
direct execution — it does not fall back. -/
theorem queue_unavailable_raises_counterexample :
    isWorkflowQueueAvailable envBrokenInit = false ∧
    (queueWorkflowExecution envBrokenInit execOk "wf1" "u1"
        TriggerType.manual none).response =
      Except.error "Workflow queue not initialized. Call initializeWorkflowQueue() first." ∧
    (queueWorkflowExecution envBrokenInit execOk "wf1" "u1"
        TriggerType.manual none).directRuns = [] :=
  ⟨rfl, rfl, rfl⟩

/-- C3 amended: when the queue is unavailable because `REDIS_URL` is falsy,
`queueWorkflowExecution` never raises: it falls back to direct synchronous
execution and returns `queued = false`; when `REDIS_URL` is set but the
queue was never initialized (e.g. broker initialization failed at startup),
it instead throws the `Workflow queue not initialized` error. -/
theorem queue_unavailable_fallback_amended (env : Env) (exec : Executor)
    (w u : String) (tt : TriggerType) (td : Option TrigData) :
    (envRedisSet env = false →
      queueWorkflowExecution env exec w u tt td =
        { directRuns := [exec w u tt td]
          enqueued := []
          response := Except.ok { jobId := "direct-execution", queued := false } }) ∧
    (envRedisSet env = true →
      queuesGet env.queues WORKFLOW_QUEUE_NAME = none →
      (queueWorkflowExecution env exec w u tt td).response =
        Except.error "Workflow queue not initialized. Call initializeWorkflowQueue() first.") := by
  constructor
  · intro h
    simp [queueWorkflowExecution, h]
  · intro h hq
    simp [queueWorkflowExecution, h, hq]

/-- Witness for C3 amended: both branches at concrete environments. -/
theorem queue_unavailable_fallback_amended_witness :
    (queueWorkflowExecution envDirect execOk "wf1" "u1"
        TriggerType.manual none).response =
      Except.ok { jobId := "direct-execution", queued := false } ∧
    (queueWorkflowExecution envBrokenInit execOk "wf1" "u1"
        TriggerType.manual none).response =
      Except.error "Workflow queue not initialized. Call initializeWorkflowQueue() first." := by
  constructor
  · rw [(queue_unavailable_fallback_amended envDirect execOk "wf1" "u1"
      TriggerType.manual none).1 rfl]
  · exact (queue_unavailable_fallback_amended envBrokenInit execOk "wf1" "u1"
      TriggerType.manual none).2 rfl rfl

/-! ## C9: each attempt re-runs the whole Step Executor -/

/-- C9: the worker's job handler re-invokes the entire Step Executor run on
the Job's own `workflowId`, `userId`, `triggerType` and `triggerData` on
every attempt: its outcome is independent of the broker's attempt counter
(no per-step checkpointing survives between attempts), it is determined by
the executor's value at exactly the Job's data, and whenever that run
reports `success = false` the handler raises an error (so the broker marks
the attempt failed and a retry re-executes the whole run afresh). -/
theorem worker_reexecutes_whole_run (exec : Executor) (j : QueueJob) (n : Nat) :
    processWorkflowJob exec { j with attemptsMade := n } = processWorkflowJob exec j ∧
    (∀ exec2 : Executor,
      exec2 j.data.workflowId j.data.userId j.data.triggerType j.data.triggerData =
        exec j.data.workflowId j.data.userId j.data.triggerType j.data.triggerData →
      processWorkflowJob exec2 j = processWorkflowJob exec j) ∧
    ((exec j.data.workflowId j.data.userId j.data.triggerType j.data.triggerData).success
        = false →
      processWorkflowJob exec j =
        Except.error (workerError
          (exec j.data.workflowId j.data.userId j.data.triggerType j.data.triggerData))) ∧
    ((exec j.data.workflowId j.data.userId j.data.triggerType j.data.triggerData).success
        = true →
      processWorkflowJob exec j =
        Except.ok (exec j.data.workflowId j.data.userId j.data.triggerType
          j.data.triggerData)) := by
  refine ⟨rfl, ?_, ?_, ?_⟩
  · intro exec2 h
    simp [processWorkflowJob, h]
  · intro h
    simp [processWorkflowJob, h]
  · intro h
    simp [processWorkflowJob, h]

/-- Witness for C9: a failing run makes the handler raise the worker's
formatted error message. -/
theorem worker_reexecutes_whole_run_witness :
    processWorkflowJob execFailBoom jobSample =
      Except.error "Workflow execution failed: boom (step: s1)" :=
  (worker_reexecutes_whole_run execFailBoom jobSample 0).2.2.1 rfl

/-! ## C10: queue statistics -/

/-- C10: `getWorkflowQueueStats` returns `null` whenever the workflow queue
is not initialized; otherwise it returns the five counters with
`total = waiting + active + delayed`, excluding the `completed` and
`failed` counts from `total`. -/
theorem queue_stats_total_excludes_terminal (qs : List (String × QueueCounts)) :
    (queuesGet qs WORKFLOW_QUEUE_NAME = none → getWorkflowQueueStats qs = none) ∧
    (∀ c : QueueCounts, queuesGet qs WORKFLOW_QUEUE_NAME = some c →
      getWorkflowQueueStats qs =
        some { waiting := c.waiting, active := c.active, completed := c.completed,
               failed := c.failed, delayed := c.delayed,
               total := c.waiting + c.active + c.delayed }) := by
  constructor
  · intro h
    simp [getWorkflowQueueStats, h]
  · intro c h
    simp [getWorkflowQueueStats, h]

/-- Witness for C10: the empty registry yields `null`; a populated registry
yields a snapshot whose `total` is `waiting + active + delayed`. -/
theorem queue_stats_total_excludes_terminal_witness :
    getWorkflowQueueStats [] = none ∧
    getWorkflowQueueStats qsSample =
      some { waiting := 2, active := 3, completed := 5, failed := 7, delayed := 11,
             total := 16 } := by
  constructor
  · exact (queue_stats_total_excludes_terminal []).1 rfl
  · exact (queue_stats_total_excludes_terminal qsSample).2 qcSample rfl

/-! ## C5: the auto-filter -/

/-- C5: for an object-shaped raw output containing the key `user` and/or
`trigger`, with no `returnValue` configured, the extracted output contains
no internal key, no key containing `_apikey` or `_api_key`, and no
credential-platform key — unless removing all such keys would leave an
empty object, in which case the original output is returned unchanged. -/
theorem auto_filter_removes_internal_keys (l : List (String × JValue))
    (h : (objGet l "user").isSome = true ∨ (objGet l "trigger").isSome = true) :
    (autoFilterEntries l ≠ [] →
      processOutput none (JValue.obj l) = JValue.obj (autoFilterEntries l) ∧
      ∀ kv ∈ autoFilterEntries l, isFilteredKey kv.1 = false) ∧
    (autoFilterEntries l = [] → processOutput none (JValue.obj l) = JValue.obj l) := by
  have hp : processOutput none (JValue.obj l) = autoFilter l := by
    simp [processOutput, rvTruthy, truthy, isObjType, jsIsArray]
  constructor
  · intro hne
    constructor
    · rw [hp]
      simp only [autoFilter]
      rw [if_pos (List.length_pos.mpr hne)]
    · intro kv hkv
      simp only [autoFilterEntries, List.mem_filter] at hkv
      simpa using hkv.2
  · intro he
    rw [hp]
    simp [autoFilter, he]

/-- Witness for C5 at a concrete output holding `user`, a credential key
and one ordinary key. -/
theorem auto_filter_removes_internal_keys_witness :
    processOutput none
        (JValue.obj [("user", JValue.num 1), ("now", JValue.str "x"),
                     ("openai_apikey", JValue.str "k")]) =
      JValue.obj [("now", JValue.str "x")] :=
  ((auto_filter_removes_internal_keys
      [("user", JValue.num 1), ("now", JValue.str "x"), ("openai_apikey", JValue.str "k")]
      (Or.inl rfl)).1
    (by
      rw [show autoFilterEntries
          [("user", JValue.num 1), ("now", JValue.str "x"),
           ("openai_apikey", JValue.str "k")] = [("now", JValue.str "x")] from rfl]
      exact List.cons_ne_nil _ _)).1

/-! ## C6: returnValue resolution with fallback -/

/-- C6: for a configured `returnValue` that is a whole-string template and
an object-shaped (non-sequence) raw output, the extractor resolves the
template path against the raw output and the resolved value becomes the
output; if any path segment is not found, it falls back to the full raw
output unchanged. The extractor is a total function, so no error can be
raised in either case. -/
theorem return_value_resolution_with_fallback (rv cap : String)
    (l : List (String × JValue)) (hc : templateCapture rv = some cap) :
    (∀ v : JValue, pathResolve (splitPath cap) (JValue.obj l) = some v →
        processOutput (some rv) (JValue.obj l) = v) ∧
    (pathResolve (splitPath cap) (JValue.obj l) = none →
        processOutput (some rv) (JValue.obj l) = JValue.obj l) := by
  have hne := templateCapture_ne_empty rv cap hc
  have hp : processOutput (some rv) (JValue.obj l) =
      resolveLoop (JValue.obj l) (splitPath cap) (JValue.obj l) := by
    simp [processOutput, rvTruthy, hne, truthy, isObjType, jsIsArray, hc]
  constructor
  · intro v hv
    rw [hp, resolveLoop_eq_pathResolve, hv]
    rfl
  · intro hv
    rw [hp, resolveLoop_eq_pathResolve, hv]
    rfl

/-- Witness for C6: a present path resolves to its value. -/
theorem return_value_resolution_with_fallback_witness :
    processOutput (some "\x7b\x7ba\x7d\x7d") (JValue.obj [("a", JValue.num 7)]) =
      JValue.num 7 :=
  (return_value_resolution_with_fallback "\x7b\x7ba\x7d\x7d" "a"
      [("a", JValue.num 7)] rfl).1 (JValue.num 7) rfl

/-! ## C7: the whole-string template gate -/

/-- C7 counterexample: on the template `\x7b\x7b a.b \x7d\x7d` (which
matches the whole-string pattern, capturing ` a.b `) and the output
`\x7ba: \x7bb: 42\x7d\x7d`, the source resolves the trimmed capture and
yields `42`, whereas splitting the captured path on `.` without trimming —
the claim's literal description — misses on segment ` a` and falls back to
the whole output. The two disagree, so the claim's description of the
resolution is not what the code computes. -/
theorem template_split_untrimmed_counterexample :
    processOutput (some "\x7b\x7b a.b \x7d\x7d")
        (JValue.obj [("a", JValue.obj [("b", JValue.num 42)])]) = JValue.num 42 ∧
    claimedExtractUntrimmed (some "\x7b\x7b a.b \x7d\x7d")
        (JValue.obj [("a", JValue.obj [("b", JValue.num 42)])]) =
      JValue.obj [("a", JValue.obj [("b", JValue.num 42)])] ∧
    processOutput (some "\x7b\x7b a.b \x7d\x7d")
        (JValue.obj [("a", JValue.obj [("b", JValue.num 42)])]) ≠
      claimedExtractUntrimmed (some "\x7b\x7b a.b \x7d\x7d")
        (JValue.obj [("a", JValue.obj [("b", JValue.num 42)])]) := by
  refine ⟨rfl, rfl, ?_⟩
  intro h
  rw [show processOutput (some "\x7b\x7b a.b \x7d\x7d")
      (JValue.obj [("a", JValue.obj [("b", JValue.num 42)])]) = JValue.num 42 from rfl] at h
  rw [show claimedExtractUntrimmed (some "\x7b\x7b a.b \x7d\x7d")
      (JValue.obj [("a", JValue.obj [("b", JValue.num 42)])]) =
      JValue.obj [("a", JValue.obj [("b", JValue.num 42)])] from rfl] at h
  exact JValue.noConfusion h

/-- C7 amended: for every configured (truthy) `returnValue` string,
resolution is attempted only when the whole string matches the
single-expression template pattern; in that case the captured path is
trimmed of leading and trailing whitespace, split on `.`, and traversed
segment by segment through nested mappings. Any configured string that is
not a full single-expression template is treated as an opaque literal and
the output passes through unresolved, with no partial interpolation. -/
theorem template_whole_match_gate_amended (rv : String) (hne : rv ≠ "") :
    (templateCapture rv = none →
      ∀ out : JValue, processOutput (some rv) out = out) ∧
    (∀ cap : String, templateCapture rv = some cap →
      ∀ l : List (String × JValue),
        processOutput (some rv) (JValue.obj l) =
          resolveLoop (JValue.obj l) (splitPath cap) (JValue.obj l)) := by
  have hb : (rv == "") = false := by
    simpa using hne
  constructor
  · intro hn out
    cases out <;>
      simp [processOutput, rvTruthy, hb, truthy, isObjType, jsIsArray, hn]
  · intro cap hc l
    simp [processOutput, rvTruthy, hb, truthy, isObjType, jsIsArray, hc]

/-- Witness for C7 amended: a non-template string passes through; a
matching template is resolved on its trimmed, dot-split capture. -/
theorem template_whole_match_gate_amended_witness :
    processOutput (some "hello") (JValue.obj [("x", JValue.num 1)]) =
      JValue.obj [("x", JValue.num 1)] ∧
    processOutput (some "\x7b\x7by\x7d\x7d") (JValue.obj [("y", JValue.num 3)]) =
      resolveLoop (JValue.obj [("y", JValue.num 3)]) (splitPath "y")
        (JValue.obj [("y", JValue.num 3)]) :=
  ⟨(template_whole_match_gate_amended "hello" (by decide)).1 rfl
      (JValue.obj [("x", JValue.num 1)]),
   (template_whole_match_gate_amended "\x7b\x7by\x7d\x7d" (by decide)).2 "y" rfl
      [("y", JValue.num 3)]⟩

/-! ## C8: sequence outputs pass through, extraction is idempotent -/

/-- C8: a raw output that is already a sequence is passed through the
extractor unchanged, whether or not a `returnValue` is configured; hence
applying the extractor twice to an already-extracted sequence output
yields the same sequence (idempotence, no double-filtering). -/
theorem sequence_output_pass_through_idempotent (retV : Option String)
    (a : List JValue) :
    processOutput retV (JValue.arr a) = JValue.arr a ∧
    processOutput retV (processOutput retV (JValue.arr a)) =
      processOutput retV (JValue.arr a) := by
  have h1 : processOutput retV (JValue.arr a) = JValue.arr a := by
    cases hrv : rvTruthy retV <;>
      simp [processOutput, hrv, truthy, isObjType, jsIsArray]
  exact ⟨h1, by rw [h1, h1]⟩

/-! ## C2: retry count and backoff delays -/

/-- C2 counterexample: with the source's job options (`attempts: 3`,
exponential backoff from 10000 ms), a Job whose execution always fails is
executed 3 times in total, so the full `queued→active→failed→queued` cycle
occurs only 2 times — not 3 — and the inter-attempt delays are
`[10000, 20000]` — there is no third, 40-second delay. -/
theorem retry_backoff_claim_counterexample :
    countOcc [JobPhase.queued, JobPhase.active, JobPhase.failed, JobPhase.queued]
        (alwaysFailPhases workflowJobAttempts) = 2 ∧
    ¬(countOcc [JobPhase.queued, JobPhase.active, JobPhase.failed, JobPhase.queued]
        (alwaysFailPhases workflowJobAttempts) = 3) ∧
    attemptDelays workflowJobAttempts workflowBackoffDelayMs = [10000, 20000] ∧
    ¬(attemptDelays workflowJobAttempts workflowBackoffDelayMs
        = [10000, 20000, 40000]) := by
  refine ⟨by decide, by decide, by decide, by decide⟩

/-- C2 amended: a Job whose execution always fails passes through
`queued→active→failed` exactly 3 times (3 whole executions), with the
`failed→queued` retry transition occurring exactly 2 times, before
resting terminally `failed`; the delays between successive attempts are
non-decreasing and equal to 10 s and 20 s (exponential backoff with base
delay 10 s, doubling per retry, 3 attempts in total). -/
theorem retry_backoff_amended :
    countOcc [JobPhase.queued, JobPhase.active, JobPhase.failed]
        (alwaysFailPhases workflowJobAttempts) = 3 ∧
    countOcc [JobPhase.failed, JobPhase.queued]
        (alwaysFailPhases workflowJobAttempts) = 2 ∧
    (alwaysFailPhases workflowJobAttempts).getLast? = some JobPhase.failed ∧
    attemptDelays workflowJobAttempts workflowBackoffDelayMs = [10000, 20000] ∧
    List.Chain' (fun a b => a ≤ b)
      (attemptDelays workflowJobAttempts workflowBackoffDelayMs) := by
  refine ⟨by decide, by decide, by decide, by decide, ?_⟩
  rw [show attemptDelays workflowJobAttempts workflowBackoffDelayMs
      = [10000, 20000] from by decide]
  simp

/-! ## C4: the global concurrency bound -/

/-- C4: in the modelled worker pool with concurrency `N`, every state
reachable from the empty initial state — under any burst of enqueued jobs,
from any mix of users — has at most `N` Jobs in the `active` phase; the
cap is global across all users, since `activeCount` counts every user's
active jobs together. -/
theorem worker_pool_active_bound (N : Nat) (s : List QJob)
    (h : PoolReachable N s) : activeCount s ≤ N := by
  induction h with
  | init => simp [activeCount]
  | step hr hstep ih =>
      cases hstep with
      | enqueue s u =>
          rw [activeCount_append]
          simpa [activeCount, isActivePhase] using ih
      | start pre post u hlt =>
          rw [activeCount_append, activeCount_cons] at hlt ⊢
          simp [isActivePhase] at hlt ⊢
          omega
      | complete pre post u =>
          rw [activeCount_append, activeCount_cons] at ih ⊢
          simp [isActivePhase] at ih ⊢
          omega
      | fail pre post u =>
          rw [activeCount_append, activeCount_cons] at ih ⊢
          simp [isActivePhase] at ih ⊢
          omega
      | retry pre post u =>
          rw [activeCount_append, activeCount_cons] at ih ⊢
          simp [isActivePhase] at ih ⊢
          omega

/-- Witness for C4: a concrete reachable state (enqueue one job, start it
under the default concurrency 10) satisfies the bound. -/
theorem worker_pool_active_bound_witness :
    PoolReachable 10 poolS1 ∧ activeCount poolS1 ≤ 10 := by
  have h0 : PoolStep 10 [] [{ user := "u1", phase := JobPhase.queued }] :=
    PoolStep.enqueue [] "u1"
  have h1 : PoolStep 10 [{ user := "u1", phase := JobPhase.queued }] poolS1 :=
    PoolStep.start [] [] "u1" (by decide)
  have hr : PoolReachable 10 poolS1 :=
    PoolReachable.step (PoolReachable.step PoolReachable.init h0) h1
  exact ⟨hr, worker_pool_active_bound 10 poolS1 hr⟩
